import Mathlib

/-!
Verification of the mediasoup-webrtc session control plane.

This file embeds the server's registry, egress-bridge and process-supervision
logic as pure Lean functions and proves or refutes the specification's claims
about them.  The embedding follows the refactored server stack
(`PeerManager`, `MediasoupService`, `FFmpegService`, `WebRTCServer` handlers),
which implements the components the specification calls PeerRegistry,
MediaEngineAdapter, TranscodeBridge and SessionOrchestrator; where a claim
hinges on the prototype draft (`index.ts`), the relevant guard is embedded as
well.

JavaScript `Map`s are modelled as association lists with `Map.set` /
`Map.delete` / key-iteration semantics (insertion order preserved, in-place
update on an existing key).  Engine-assigned handle identifiers (socket ids,
producer ids, ...) are opaque strings supplied as parameters at the point the
external engine would mint them.
-/

set_option autoImplicit false

/-- Association list keyed by strings, modelling a JavaScript `Map` whose
iteration order is insertion order. -/
abbrev SMap (α : Type) := List (String × α)

/-- `Map.get`: first entry with the given key, if any. -/
def alookup {α : Type} : SMap α → String → Option α
  | [], _ => none
  | (k', v) :: rest, k => if k' = k then some v else alookup rest k

/-- `Map.set`: replace the value in place when the key is present (keeping its
position in iteration order), otherwise append a new entry at the end. -/
def mapSet {α : Type} : SMap α → String → α → SMap α
  | [], k, v => [(k, v)]
  | (k', v') :: rest, k, v =>
      if k' = k then (k, v) :: rest else (k', v') :: mapSet rest k v

/-- `Map.delete`: remove any entry with the given key. -/
def mapDelete {α : Type} : SMap α → String → SMap α
  | [], _ => []
  | (k', v') :: rest, k =>
      if k' = k then mapDelete rest k else (k', v') :: mapDelete rest k

/-- `Array.from(map.keys())`: the keys in iteration order. -/
def mapKeys {α : Type} (m : SMap α) : List String :=
  m.map Prod.fst

/-- `Array.prototype.indexOf`, with `none` standing for JavaScript's `-1`. -/
def jsIndexOf : List String → String → Option Nat
  | [], _ => none
  | y :: ys, x => if y = x then some 0 else (jsIndexOf ys x).map (· + 1)

/-- Media kind of a producer or consumer (`kind: "audio" | "video"`). -/
inductive MediaKind where
  | audio
  | video
deriving DecidableEq, Repr

/-- A WebRTC transport handle held for a peer (`types.WebRtcTransport`);
only the engine-assigned id is relevant to the control plane. -/
structure Transport where
  id : String
deriving DecidableEq, Repr

/-- A producer handle (`types.Producer`): engine-assigned id and media kind. -/
structure Producer where
  id : String
  kind : MediaKind
deriving DecidableEq, Repr

/-- A consumer handle (`types.Consumer`): engine-assigned id, the producer it
consumes, its kind, and its paused flag (created with `paused: true`). -/
structure Consumer where
  id : String
  producerId : String
  kind : MediaKind
  paused : Bool
deriving DecidableEq, Repr

/-- Per-peer resource maps, as in the `Peer` type of the source
(`transports`, `producers`, `consumers`, each a `Map` keyed by handle id). -/
structure Peer where
  transports : SMap Transport
  producers : SMap Producer
  consumers : SMap Consumer
deriving DecidableEq, Repr

/-- A freshly admitted peer: three empty maps. -/
def Peer.empty : Peer :=
  { transports := [], producers := [], consumers := [] }

/-- A `close()` call observed on an engine handle during peer cleanup. -/
inductive ClosedResource where
  | transport (id : String)
  | producer (id : String)
  | consumer (id : String)
deriving DecidableEq, Repr

/-- State of the `PeerManager` service: the peer map and the
`producerAssignments` map (producerId → egress transport index). -/
structure PeerManager where
  peers : SMap Peer
  producerAssignments : SMap Nat
deriving DecidableEq, Repr

/-- The `PeerManager` as constructed: both maps empty. -/
def PeerManager.empty : PeerManager :=
  { peers := [], producerAssignments := [] }

/-- `PeerManager.addPeer`: unconditionally `set`s a fresh empty peer record
for the socket id — the source performs no duplicate-id check. -/
def PeerManager.addPeer (pm : PeerManager) (socketId : String) : PeerManager :=
  { pm with peers := mapSet pm.peers socketId Peer.empty }

/-- `PeerManager.getPeer`. -/
def PeerManager.getPeer (pm : PeerManager) (socketId : String) : Option Peer :=
  alookup pm.peers socketId

/-- `PeerManager.removePeer`: when the peer exists, close every owned
transport, producer (dropping its slot assignment) and consumer, then delete
the peer; when absent, do nothing.  The returned list records the `close()`
calls issued, in source order (transports, then producers, then consumers). -/
def PeerManager.removePeer (pm : PeerManager) (socketId : String) :
    PeerManager × List ClosedResource :=
  match alookup pm.peers socketId with
  | none => (pm, [])
  | some peer =>
      let closedT := peer.transports.map (fun e => ClosedResource.transport e.1)
      let closedP := peer.producers.map (fun e => ClosedResource.producer e.1)
      let closedC := peer.consumers.map (fun e => ClosedResource.consumer e.1)
      let asg := peer.producers.foldl (fun a e => mapDelete a e.1) pm.producerAssignments
      ({ peers := mapDelete pm.peers socketId, producerAssignments := asg },
       closedT ++ closedP ++ closedC)

/-- `PeerManager.addTransport`: record the transport when the peer exists;
silently do nothing otherwise (the source has no `else` branch). -/
def PeerManager.addTransport (pm : PeerManager) (socketId : String) (t : Transport) :
    PeerManager :=
  match alookup pm.peers socketId with
  | none => pm
  | some peer =>
      let peer2 : Peer := { peer with transports := mapSet peer.transports t.id t }
      { pm with peers := mapSet pm.peers socketId peer2 }

/-- `PeerManager.getTransport`. -/
def PeerManager.getTransport (pm : PeerManager) (socketId transportId : String) :
    Option Transport :=
  match alookup pm.peers socketId with
  | none => none
  | some peer => alookup peer.transports transportId

/-- `PeerManager.addProducer`: record the producer when the peer exists. -/
def PeerManager.addProducer (pm : PeerManager) (socketId : String) (p : Producer) :
    PeerManager :=
  match alookup pm.peers socketId with
  | none => pm
  | some peer =>
      let peer2 : Peer := { peer with producers := mapSet peer.producers p.id p }
      { pm with peers := mapSet pm.peers socketId peer2 }

/-- Scan of the peer map used by `PeerManager.getProducer`: first producer
with the given id across all peers, in peer-map iteration order. -/
def findInPeers : SMap Peer → String → Option Producer
  | [], _ => none
  | (_, peer) :: rest, pid =>
      match alookup peer.producers pid with
      | some p => some p
      | none => findInPeers rest pid

/-- `PeerManager.getProducer`: global lookup of a producer id across peers. -/
def PeerManager.getProducer (pm : PeerManager) (producerId : String) : Option Producer :=
  findInPeers pm.peers producerId

/-- `PeerManager.addConsumer`: record the consumer when the peer exists. -/
def PeerManager.addConsumer (pm : PeerManager) (socketId : String) (c : Consumer) :
    PeerManager :=
  match alookup pm.peers socketId with
  | none => pm
  | some peer =>
      let peer2 : Peer := { peer with consumers := mapSet peer.consumers c.id c }
      { pm with peers := mapSet pm.peers socketId peer2 }

/-- `PeerManager.getConsumer`: lookup scoped to the requesting peer's map. -/
def PeerManager.getConsumer (pm : PeerManager) (socketId consumerId : String) :
    Option Consumer :=
  match alookup pm.peers socketId with
  | none => none
  | some peer => alookup peer.consumers consumerId

/-- `consumer.resume()` as reflected in the registry: clear the paused flag of
the named consumer of the named peer (no-op when absent). -/
def PeerManager.resumeConsumer (pm : PeerManager) (socketId consumerId : String) :
    PeerManager :=
  match alookup pm.peers socketId with
  | none => pm
  | some peer =>
      match alookup peer.consumers consumerId with
      | none => pm
      | some c =>
          let c2 : Consumer := { c with paused := false }
          let peer2 : Peer := { peer with consumers := mapSet peer.consumers consumerId c2 }
          { pm with peers := mapSet pm.peers socketId peer2 }

/-- Helper for `getExistingProducers`: `(producerId, socketId)` pairs of every
peer other than the excluded one, in iteration order. -/
def collectProducers : SMap Peer → String → List (String × String)
  | [], _ => []
  | (sid, peer) :: rest, ex =>
      (if sid = ex then [] else peer.producers.map (fun pr => (pr.1, sid)))
        ++ collectProducers rest ex

/-- `PeerManager.getExistingProducers`. -/
def PeerManager.getExistingProducers (pm : PeerManager) (excludeSocketId : String) :
    List (String × String) :=
  collectProducers pm.peers excludeSocketId

/-- `PeerManager.getProducerTransportIndex`: position of the socket id in the
*current* peer-map key order, rejected (source value `-1`, here `none`) when
the peer is absent or its index exceeds `1` (capacity 2 hardcoded). -/
def PeerManager.getProducerTransportIndex (pm : PeerManager) (socketId : String) :
    Option Nat :=
  match jsIndexOf (mapKeys pm.peers) socketId with
  | none => none
  | some i => if i > 1 then none else some i

/-- `PeerManager.setProducerAssignment`. -/
def PeerManager.setProducerAssignment (pm : PeerManager) (producerId : String)
    (transportIndex : Nat) : PeerManager :=
  { pm with producerAssignments := mapSet pm.producerAssignments producerId transportIndex }

/-- `PeerManager.getProducerAssignment`. -/
def PeerManager.getProducerAssignment (pm : PeerManager) (producerId : String) :
    Option Nat :=
  alookup pm.producerAssignments producerId

/-- `PeerManager.getAllPeerIds`. -/
def PeerManager.getAllPeerIds (pm : PeerManager) : List String :=
  mapKeys pm.peers

/-- An egress (plain-transport) consumer created by
`MediasoupService.createRtpConsumer`: its engine id, the producer it bridges,
the index of the egress transport it sits on, and its media kind. -/
structure RtpConsumer where
  id : String
  producerId : String
  transportIndex : Nat
  kind : MediaKind
deriving DecidableEq, Repr

/-- Egress state of the `MediasoupService`: the consumers living on the two
video and two audio plain RTP transports created at initialization
(`initializeRtpTransports` creates exactly two per kind, so
`rtpTransports[i]` exists iff `i < 2`). -/
structure MediasoupService where
  videoRtpConsumers : List RtpConsumer
  audioRtpConsumers : List RtpConsumer
deriving DecidableEq, Repr

/-- The `MediasoupService` right after `initialize`: transports exist, no
egress consumers yet. -/
def MediasoupService.empty : MediasoupService :=
  { videoRtpConsumers := [], audioRtpConsumers := [] }

/-- `MediasoupService.createRtpConsumer`: pick the plain transport of the
producer's kind at `transportIndex`; if it exists (`transportIndex < 2`),
create a consumer for the producer on it and return it, otherwise log and
return `null`.  The source performs no occupancy check on the slot. -/
def MediasoupService.createRtpConsumer (ms : MediasoupService) (producer : Producer)
    (transportIndex : Nat) (newConsumerId : String) :
    Option RtpConsumer × MediasoupService :=
  if transportIndex < 2 then
    let c : RtpConsumer :=
      { id := newConsumerId, producerId := producer.id,
        transportIndex := transportIndex, kind := producer.kind }
    match producer.kind with
    | MediaKind.video =>
        (some c, { ms with videoRtpConsumers := ms.videoRtpConsumers ++ [c] })
    | MediaKind.audio =>
        (some c, { ms with audioRtpConsumers := ms.audioRtpConsumers ++ [c] })
  else
    (none, ms)

/-- Total number of egress consumers across both kinds. -/
def egressCount (ms : MediasoupService) : Nat :=
  ms.videoRtpConsumers.length + ms.audioRtpConsumers.length

/-- A spawned transcoder process handle (`ChildProcess`): its pid and whether
`kill` has been called on it. -/
structure FFmpegProc where
  pid : Nat
  killed : Bool
deriving DecidableEq, Repr

/-- State of the `FFmpegService`: the single `process` field
(`ChildProcess | null`). -/
structure FFmpegService where
  process : Option FFmpegProc
deriving DecidableEq, Repr

/-- `FFmpegService.isRunning`: `process !== null && !process.killed`. -/
def FFmpegService.isRunning (fs : FFmpegService) : Bool :=
  match fs.process with
  | some p => !p.killed
  | none => false

/-- `FFmpegService.start`: early-return without spawning when already
running, otherwise spawn a fresh process and store its handle.  The returned
flag records whether a spawn happened. -/
def FFmpegService.start (fs : FFmpegService) (newPid : Nat) : FFmpegService × Bool :=
  if fs.isRunning then (fs, false)
  else ({ process := some { pid := newPid, killed := false } }, true)

/-- `FFmpegService.stop`: kill and null the handle when present. -/
def FFmpegService.stop (fs : FFmpegService) : FFmpegService :=
  match fs.process with
  | none => fs
  | some _ => { process := none }

/-- The prototype draft's FFmpeg trigger guard in the `produce` handler of
`index.ts`: `peers.size === 2 && !ffmpegProcess`. -/
def prototypeFfmpegTrigger (peerCount : Nat) (ffmpegProcess : Option FFmpegProc) : Bool :=
  peerCount == 2 && ffmpegProcess.isNone

/-- Whole-server state coordinated by `WebRTCServer`. -/
structure ServerState where
  pm : PeerManager
  ms : MediasoupService
  ffmpeg : FFmpegService
deriving DecidableEq, Repr

/-- A socket event emitted (or a registry milestone reached) by a handler,
in the order it happens.  `producerRecorded` marks the completion of
`peerManager.addProducer`; `bridgeAttempted` marks the completion of
`createRtpConsumerForProducer` with the slot index it assigned, if any. -/
inductive Event where
  | producerRecorded (socketId producerId : String)
  | bridgeAttempted (producerId : String) (assignedIndex : Option Nat)
  | newProducerBroadcast (producerId socketId : String)
  | existingProducersSent (toSocketId : String) (producers : List (String × String))
deriving DecidableEq, Repr

/-- `WebRTCServer.start`: initialize mediasoup, then start the FFmpeg service
unconditionally — before any peer has connected or produced. -/
def serverStart (ffmpegPid : Nat) : ServerState :=
  { pm := PeerManager.empty, ms := MediasoupService.empty,
    ffmpeg := (FFmpegService.start { process := none } ffmpegPid).1 }

/-- `WebRTCServer.handleConnection`: admit the peer, then send it the
existing-producers snapshot. -/
def handleConnection (s : ServerState) (socketId : String) : ServerState × List Event :=
  let pm2 := PeerManager.addPeer s.pm socketId
  let ex := PeerManager.getExistingProducers pm2 socketId
  ({ s with pm := pm2 }, [Event.existingProducersSent socketId ex])

/-- `WebRTCServer.handleDisconnection`: remove the peer (cascading close of
its resources).  The handler emits no socket events — the source only calls
`peerManager.removePeer` and logs. -/
def handleDisconnection (s : ServerState) (socketId : String) :
    ServerState × List ClosedResource × List Event :=
  let r := PeerManager.removePeer s.pm socketId
  ({ s with pm := r.1 }, r.2, [])

/-- `WebRTCServer.handleCreateWebRtcTransport`: create the transport via the
engine and record it for the peer. -/
def handleCreateWebRtcTransport (s : ServerState) (socketId newTransportId : String) :
    ServerState × Except String String :=
  let t : Transport := { id := newTransportId }
  ({ s with pm := PeerManager.addTransport s.pm socketId t }, Except.ok newTransportId)

/-- `WebRTCServer.createRtpConsumerForProducer`: look up the peer's current
transport index; on `-1` bail out, otherwise have the `MediasoupService`
create the egress consumer and, if one was created, record the assignment. -/
def createRtpConsumerForProducer (pm : PeerManager) (ms : MediasoupService)
    (producer : Producer) (socketId newConsumerId : String) :
    PeerManager × MediasoupService × Option Nat :=
  match PeerManager.getProducerTransportIndex pm socketId with
  | none => (pm, ms, none)
  | some ti =>
      match MediasoupService.createRtpConsumer ms producer ti newConsumerId with
      | (none, ms2) => (pm, ms2, none)
      | (some _, ms2) => (PeerManager.setProducerAssignment pm producer.id ti, ms2, some ti)

/-- `WebRTCServer.handleProduce`: validate the transport, create the producer
via the engine (its id is engine-assigned), record it in the registry,
attempt the egress-bridge assignment, then broadcast `new-producer` to the
other peers, send this peer the existing-producers snapshot when non-empty,
and reply with the producer id. -/
def handleProduce (s : ServerState) (socketId transportId : String) (kind : MediaKind)
    (newProducerId newRtpConsumerId : String) :
    ServerState × List Event × Except String String :=
  match PeerManager.getTransport s.pm socketId transportId with
  | none => (s, [], Except.error "Transport not found")
  | some _ =>
      let producer : Producer := { id := newProducerId, kind := kind }
      let pm1 := PeerManager.addProducer s.pm socketId producer
      let r := createRtpConsumerForProducer pm1 s.ms producer socketId newRtpConsumerId
      let pm2 := r.1
      let ms2 := r.2.1
      let assigned := r.2.2
      let ex := PeerManager.getExistingProducers pm2 socketId
      let events :=
        [Event.producerRecorded socketId newProducerId,
         Event.bridgeAttempted newProducerId assigned,
         Event.newProducerBroadcast newProducerId socketId]
          ++ (if ex.isEmpty then [] else [Event.existingProducersSent socketId ex])
      ({ s with pm := pm2, ms := ms2 }, events, Except.ok newProducerId)

/-- Success payload of the `consume` request
(`{id, producerId, kind, rtpParameters}`). -/
structure ConsumerInfo where
  id : String
  producerId : String
  kind : MediaKind
deriving DecidableEq, Repr

/-- `WebRTCServer.handleConsume`: validate the receive transport, then the
engine's `router.canConsume` check — which returns `false` when the producer
id is unknown to the router (and every producer the router knows is one the
registry recorded via `produce`, here the `getProducer` lookup) or when the
client capabilities are incompatible (abstracted by `capsOk`).  On failure
the single rejection `"Cannot consume"` is returned; on success a paused
consumer is created and recorded. -/
def handleConsume (s : ServerState) (socketId transportId producerId : String)
    (capsOk : Bool) (newConsumerId : String) :
    ServerState × Except String ConsumerInfo :=
  match PeerManager.getTransport s.pm socketId transportId with
  | none => (s, Except.error "Receiving transport not found")
  | some _ =>
      match PeerManager.getProducer s.pm producerId, capsOk with
      | some producer, true =>
          let c : Consumer :=
            { id := newConsumerId, producerId := producerId,
              kind := producer.kind, paused := true }
          ({ s with pm := PeerManager.addConsumer s.pm socketId c },
           Except.ok { id := newConsumerId, producerId := producerId, kind := producer.kind })
      | _, _ => (s, Except.error "Cannot consume")

/-- `WebRTCServer.handleResume`: look the consumer up in the requesting
peer's own map; reply with an error when absent, otherwise resume it. -/
def handleResume (s : ServerState) (socketId consumerId : String) :
    ServerState × Except String Unit :=
  match PeerManager.getConsumer s.pm socketId consumerId with
  | none => (s, Except.error "Consumer not found")
  | some _ =>
      ({ s with pm := PeerManager.resumeConsumer s.pm socketId consumerId }, Except.ok ())

/-- State after a `connection` event (scenario-building shorthand). -/
def sConn (s : ServerState) (socketId : String) : ServerState :=
  (handleConnection s socketId).1

/-- State after a `createWebRtcTransport` request (scenario shorthand). -/
def sTrans (s : ServerState) (socketId newTransportId : String) : ServerState :=
  (handleCreateWebRtcTransport s socketId newTransportId).1

/-- State after a successful `produce` request (scenario shorthand). -/
def sProd (s : ServerState) (socketId transportId : String) (kind : MediaKind)
    (newProducerId newRtpConsumerId : String) : ServerState :=
  (handleProduce s socketId transportId kind newProducerId newRtpConsumerId).1

/-- Three peers admitted in order, starting from an empty registry. -/
def admitThree (p1 p2 p3 : String) : PeerManager :=
  PeerManager.addPeer (PeerManager.addPeer (PeerManager.addPeer PeerManager.empty p1) p2) p3

/-- Two peers admitted in order: first `"a"`, then `"b"`. -/
def pmAB : PeerManager :=
  PeerManager.addPeer (PeerManager.addPeer PeerManager.empty "a") "b"

/-- A registry whose only peer `"a"` owns one video producer `"p1"`. -/
def pmC4 : PeerManager :=
  PeerManager.addProducer (PeerManager.addPeer PeerManager.empty "a") "a"
    { id := "p1", kind := MediaKind.video }

/-- Peer `"a"` connects, opens transport `"t1"`, produces video `"p1"`
(bridged to slot 0); then peer `"b"` connects.  Used to evaluate the
disconnect path while another peer is connected. -/
def c2State : ServerState :=
  sConn (sProd (sTrans (sConn (serverStart 1) "a") "a" "t1")
    "a" "t1" MediaKind.video "p1" "rc1") "b"

/-- Peer `"a"` connects, opens transport `"t1"` and produces video `"p1"`:
slot 0 now holds a video producer. -/
def c3Pre : ServerState :=
  sProd (sTrans (sConn (serverStart 1) "a") "a" "t1") "a" "t1" MediaKind.video "p1" "rc1"

/-- `c3Pre` after peer `"a"` republishes a second video track `"p2"`, which
targets the already-occupied slot 0. -/
def c3State : ServerState :=
  sProd c3Pre "a" "t1" MediaKind.video "p2" "rc2"

/-- Scenario B of the specification: peers `"a"` and `"b"` connect, open
transports and each produce audio and video. -/
def scenarioB : ServerState :=
  sProd (sProd (sTrans (sConn
    (sProd (sProd (sTrans (sConn (serverStart 1) "a") "a" "t1")
      "a" "t1" MediaKind.audio "pa1" "ra1") "a" "t1" MediaKind.video "pv1" "rv1")
    "b") "b" "t2") "b" "t2" MediaKind.audio "pa2" "ra2") "b" "t2" MediaKind.video "pv2" "rv2"

/-- Peers `"a"` (receive transport `"t1"`) and `"b"` (transport `"t2"`,
video producer `"p1"`) are connected. -/
def c6State : ServerState :=
  sProd (sTrans (sConn (sTrans (sConn (serverStart 1) "a") "a" "t1") "b") "b" "t2")
    "b" "t2" MediaKind.video "p1" "rcb"

/-- `c6State` after peer `"b"` consumes producer `"p1"`, owning consumer
`"cb1"`; peer `"a"` owns no consumer. -/
def c7State : ServerState :=
  (handleConsume c6State "b" "t2" "p1" true "cb1").1

/-- Peer `"a"` connected with transport `"t1"`, no producers yet. -/
def c9State : ServerState :=
  sTrans (sConn (serverStart 1) "a") "a" "t1"

/-- The server state in force when `handleProduce`'s `new-producer`
broadcast is emitted (the registry write and the bridge attempt have already
happened; the broadcast itself mutates nothing). -/
def producedState (s : ServerState) (sid npid ncid : String) (kind : MediaKind) :
    ServerState :=
  let producer : Producer := { id := npid, kind := kind }
  let pm1 := PeerManager.addProducer s.pm sid producer
  let r := createRtpConsumerForProducer pm1 s.ms producer sid ncid
  { s with pm := r.1, ms := r.2.1 }

/-- The slot index the bridge attempt of `handleProduce` assigned, if any. -/
def producedAssigned (s : ServerState) (sid npid ncid : String) (kind : MediaKind) :
    Option Nat :=
  (createRtpConsumerForProducer (PeerManager.addProducer s.pm sid { id := npid, kind := kind })
    s.ms { id := npid, kind := kind } sid ncid).2.2

/-- The events `handleProduce` emits after the `new-producer` broadcast. -/
def producedTrailing (s : ServerState) (sid npid ncid : String) (kind : MediaKind) :
    List Event :=
  let ex := PeerManager.getExistingProducers (producedState s sid npid ncid kind).pm sid
  if ex.isEmpty then [] else [Event.existingProducersSent sid ex]

/-- Setting a key makes it retrievable. -/
theorem alookup_mapSet_self {α : Type} (m : SMap α) (k : String) (v : α) :
    alookup (mapSet m k v) k = some v := by
  induction m with
  | nil => simp [mapSet, alookup]
  | cons e rest ih =>
      obtain ⟨k', v'⟩ := e
      by_cases h : k' = k
      · simp [mapSet, h, alookup]
      · simp [mapSet, h, alookup, ih]

/-- Setting a key leaves lookups of other keys unchanged. -/
theorem alookup_mapSet_ne {α : Type} (m : SMap α) (k k2 : String) (v : α)
    (h : k2 ≠ k) : alookup (mapSet m k v) k2 = alookup m k2 := by
  have h2 : ¬(k = k2) := fun he => h he.symm
  induction m with
  | nil => simp [mapSet, alookup, h2]
  | cons e rest ih =>
      obtain ⟨k', v'⟩ := e
      by_cases hk : k' = k
      · subst hk
        simp [mapSet, alookup, h2]
      · by_cases hk2 : k' = k2
        · subst hk2
          simp [mapSet, alookup, hk]
        · simp [mapSet, alookup, hk, hk2, ih]

/-- Deleting a key makes it absent. -/
theorem alookup_mapDelete_self {α : Type} (m : SMap α) (k : String) :
    alookup (mapDelete m k) k = none := by
  induction m with
  | nil => simp [mapDelete, alookup]
  | cons e rest ih =>
      obtain ⟨k', v'⟩ := e
      by_cases h : k' = k
      · simp [mapDelete, h, ih]
      · simp [mapDelete, alookup, h, ih]

/-- Setting an already-present key preserves the key order (JavaScript
`Map.set` updates in place). -/
theorem mapKeys_mapSet_present {α : Type} (m : SMap α) (k : String) (v : α)
    (h : (alookup m k).isSome = true) : mapKeys (mapSet m k v) = mapKeys m := by
  induction m with
  | nil => simp [alookup] at h
  | cons e rest ih =>
      obtain ⟨k', v'⟩ := e
      by_cases hk : k' = k
      · simp [mapSet, hk, mapKeys]
      · simp [alookup, hk] at h
        have h3 := ih h
        simp [mapKeys] at h3
        simp [mapSet, hk, mapKeys, h3]

/-- If some peer entry holds the producer, the global scan finds one. -/
theorem findInPeers_isSome (ps : SMap Peer) (sid pid : String) (peer : Peer)
    (h1 : alookup ps sid = some peer)
    (h2 : (alookup peer.producers pid).isSome = true) :
    (findInPeers ps pid).isSome = true := by
  induction ps with
  | nil => simp [alookup] at h1
  | cons e rest ih =>
      obtain ⟨k, pr⟩ := e
      by_cases hk : k = sid
      · simp [alookup, hk] at h1
        subst h1
        cases hq : alookup pr.producers pid with
        | none => rw [hq] at h2; simp at h2
        | some p => simp [findInPeers, hq]
      · simp [alookup, hk] at h1
        cases hq : alookup pr.producers pid with
        | none => simp [findInPeers, hq, ih h1]
        | some p => simp [findInPeers, hq]

/-- The bridge-assignment attempt never touches the peer map — it only reads
the key order and possibly writes `producerAssignments`. -/
theorem createRtpConsumerForProducer_peers (pm : PeerManager) (ms : MediasoupService)
    (producer : Producer) (sid ncid : String) :
    (createRtpConsumerForProducer pm ms producer sid ncid).1.peers = pm.peers := by
  unfold createRtpConsumerForProducer
  cases h : PeerManager.getProducerTransportIndex pm sid with
  | none => rfl
  | some ti =>
      rcases h2 : MediasoupService.createRtpConsumer ms producer ti ncid with ⟨o, ms2⟩
      cases o <;> simp [h2, PeerManager.setProducerAssignment]

/-- C1: the claim's stability clause fails on the code.  With peers `"a"`
then `"b"` admitted, `"b"`'s egress index is `1`; after `"a"` is removed —
before `"b"` ever produces — the same lookup yields `0`, because
`getProducerTransportIndex` recomputes the position in the *current* peer
map at produce time instead of using a join index fixed at admission. -/
theorem c1_slot_index_shifts_counterexample :
    PeerManager.getProducerTransportIndex pmAB "b" = some 1
  ∧ PeerManager.getProducerTransportIndex (PeerManager.removePeer pmAB "a").1 "b" = some 0 := by
  decide

/-- C1 (amended): the egress index of a producer is its owner's position in
the currently-registered peer order at the time of the produce call, capped
at capacity 2.  When no peer is removed in between, the first-admitted peer
maps to slot 0, the second to slot 1 and the third to no slot; a removal
before the produce call shifts later peers down (here: after removing the
first peer, the second peer's producers map to slot 0). -/
theorem c1_slot_index_from_current_order (p1 p2 p3 : String)
    (h12 : p1 ≠ p2) (h13 : p1 ≠ p3) (h23 : p2 ≠ p3) :
    PeerManager.getProducerTransportIndex (admitThree p1 p2 p3) p1 = some 0
  ∧ PeerManager.getProducerTransportIndex (admitThree p1 p2 p3) p2 = some 1
  ∧ PeerManager.getProducerTransportIndex (admitThree p1 p2 p3) p3 = none
  ∧ PeerManager.getProducerTransportIndex ((PeerManager.removePeer (admitThree p1 p2 p3) p1).1) p2
      = some 0 := by
  refine ⟨?_, ?_, ?_, ?_⟩ <;>
    simp [admitThree, PeerManager.addPeer, PeerManager.empty, PeerManager.removePeer,
      PeerManager.getProducerTransportIndex, mapSet, mapDelete, mapKeys, jsIndexOf,
      alookup, Peer.empty, h12, h13, h23, Ne.symm h12, Ne.symm h13, Ne.symm h23]

/-- C1 witness: the amended statement at concrete peers `"a"`, `"b"`, `"c"`. -/
theorem c1_slot_index_from_current_order_witness :
    PeerManager.getProducerTransportIndex (admitThree "a" "b" "c") "a" = some 0
  ∧ PeerManager.getProducerTransportIndex (admitThree "a" "b" "c") "b" = some 1
  ∧ PeerManager.getProducerTransportIndex (admitThree "a" "b" "c") "c" = none
  ∧ PeerManager.getProducerTransportIndex ((PeerManager.removePeer (admitThree "a" "b" "c") "a").1) "b"
      = some 0 :=
  c1_slot_index_from_current_order "a" "b" "c" (by decide) (by decide) (by decide)

/-- C4: the claim fails on the code.  `addPeer` performs no duplicate-id
check: re-adding `"a"`, whose registry record owns producer `"p1"`, neither
fails nor leaves the peer untouched — it silently replaces the record with a
fresh empty one, and `"p1"` vanishes from the registry. -/
theorem c4_addpeer_overwrites_counterexample :
    (PeerManager.getProducer pmC4 "p1").isSome = true
  ∧ PeerManager.getProducer (PeerManager.addPeer pmC4 "a") "p1" = none
  ∧ PeerManager.getPeer (PeerManager.addPeer pmC4 "a") "a" = some Peer.empty := by
  decide

/-- C4 (amended): `addPeer` on an id already present does not fail; it
replaces that peer's record with a fresh empty one (its transports,
producers and consumers are dropped from the registry), while keeping the
peer's position in admission order and leaving the assignment table and
every other peer untouched. -/
theorem c4_addpeer_replaces_record (pm : PeerManager) (sid : String)
    (h : (alookup pm.peers sid).isSome = true) :
    mapKeys (PeerManager.addPeer pm sid).peers = mapKeys pm.peers
  ∧ alookup (PeerManager.addPeer pm sid).peers sid = some Peer.empty
  ∧ (PeerManager.addPeer pm sid).producerAssignments = pm.producerAssignments
  ∧ ∀ sid2, sid2 ≠ sid →
      alookup (PeerManager.addPeer pm sid).peers sid2 = alookup pm.peers sid2 := by
  refine ⟨mapKeys_mapSet_present pm.peers sid Peer.empty h, ?_, rfl, ?_⟩
  · simp [PeerManager.addPeer, alookup_mapSet_self]
  · intro sid2 h2
    simp [PeerManager.addPeer, alookup_mapSet_ne pm.peers sid sid2 Peer.empty h2]

/-- C4 witness: the amended statement at the concrete registry `pmC4`. -/
theorem c4_addpeer_replaces_record_witness :
    mapKeys (PeerManager.addPeer pmC4 "a").peers = mapKeys pmC4.peers
  ∧ alookup (PeerManager.addPeer pmC4 "a").peers "a" = some Peer.empty
  ∧ (PeerManager.addPeer pmC4 "a").producerAssignments = pmC4.producerAssignments
  ∧ ∀ sid2, sid2 ≠ "a" →
      alookup (PeerManager.addPeer pmC4 "a").peers sid2 = alookup pmC4.peers sid2 :=
  c4_addpeer_replaces_record pmC4 "a" (by decide)

/-- C7: a `resume` request naming a consumer id the requesting peer does not
own is answered with the `"Consumer not found"` error and leaves the whole
server state — in particular every consumer — unchanged
(`WebRTCServer.handleResume`). -/
theorem c7_resume_unknown_consumer_rejected (s : ServerState) (sid cid : String)
    (h : PeerManager.getConsumer s.pm sid cid = none) :
    handleResume s sid cid = (s, Except.error "Consumer not found") := by
  simp [handleResume, h]

/-- C7 witness: in `c7State`, consumer `"cb1"` exists but belongs to peer
`"b"`; peer `"a"`'s resume request for it is rejected and nothing changes. -/
theorem c7_resume_unknown_consumer_rejected_witness :
    handleResume c7State "a" "cb1" = (c7State, Except.error "Consumer not found") :=
  c7_resume_unknown_consumer_rejected c7State "a" "cb1" (by decide)

/-- C8: `removePeer` is idempotent — after one removal the id is absent, so
a second removal returns the state unchanged and closes no resource,
surfacing no double-close. -/
theorem c8_removepeer_idempotent (pm : PeerManager) (sid : String) :
    PeerManager.removePeer (PeerManager.removePeer pm sid).1 sid
      = ((PeerManager.removePeer pm sid).1, []) := by
  have h2 : alookup (PeerManager.removePeer pm sid).1.peers sid = none := by
    cases h : alookup pm.peers sid with
    | none => simp [PeerManager.removePeer, h]
    | some peer => simp [PeerManager.removePeer, h, alookup_mapDelete_self]
  generalize (PeerManager.removePeer pm sid).1 = X at h2 ⊢
  simp [PeerManager.removePeer, h2]

/-- C10: the FFmpeg supervisor never spawns a second process: `start` on a
running service is a no-op returning the handle untouched and spawning
nothing, and the prototype produce-path trigger
(`peers.size === 2 && !ffmpegProcess`) only fires when no process handle
exists. -/
theorem c10_single_ffmpeg_process (fs : FFmpegService) (newPid peerCount : Nat)
    (proc : Option FFmpegProc)
    (h1 : fs.isRunning = true) (h2 : prototypeFfmpegTrigger peerCount proc = true) :
    FFmpegService.start fs newPid = (fs, false) ∧ proc = none := by
  constructor
  · simp [FFmpegService.start, h1]
  · cases proc with
    | none => rfl
    | some p => simp [prototypeFfmpegTrigger] at h2

/-- C10 witness: a running service with pid 7, and the prototype trigger
firing with two peers and a null handle. -/
theorem c10_single_ffmpeg_process_witness :
    FFmpegService.start { process := some { pid := 7, killed := false } } 9
      = ({ process := some { pid := 7, killed := false } }, false)
  ∧ (none : Option FFmpegProc) = none :=
  c10_single_ffmpeg_process { process := some { pid := 7, killed := false } } 9 2 none
    (by decide) (by decide)

/-- C2: evaluation of the disconnect path at the failing input.  In
`c2State`, peer `"a"` owns producer `"p1"` and peer `"b"` is connected to
receive a broadcast; yet when `"a"` disconnects the handler emits no socket
event at all — `"p1"` is closed via the registry cascade, but no
`producerClosed` message reaches `"b"`, whose client registers a
`producer-closed` listener for exactly this situation. -/
theorem c2_no_producer_closed_broadcast :
    (handleDisconnection c2State "a").2.2 = []
  ∧ ClosedResource.producer "p1" ∈ (handleDisconnection c2State "a").2.1
  ∧ (PeerManager.getPeer c2State.pm "b").isSome = true := by
  decide

/-- C3: the claim fails on the code.  Peer `"a"`'s slot-0 video position is
already filled by `"p1"`, yet the republished video producer `"p2"` is not
rejected: the produce call succeeds, a second egress consumer is created on
the same video RTP transport (two consumers with transport index 0), and
`"p2"` is recorded in the assignment table alongside `"p1"`. -/
theorem c3_no_slot_occupied_rejection_counterexample :
    (handleProduce c3Pre "a" "t1" MediaKind.video "p2" "rc2").2.2 = Except.ok "p2"
  ∧ c3State.ms.videoRtpConsumers.length = 2
  ∧ (c3State.ms.videoRtpConsumers.map RtpConsumer.transportIndex) = [0, 0]
  ∧ PeerManager.getProducerAssignment c3State.pm "p1" = some 0
  ∧ PeerManager.getProducerAssignment c3State.pm "p2" = some 0 :=
  ⟨rfl, rfl, rfl, rfl, rfl⟩

/-- C3 (amended): a second producer of the same kind arriving for an
already-filled slot is not rejected — the bridge performs no occupancy
check.  A new egress consumer is created on the same egress transport and
the new producer is recorded in the assignment table; the original
producer's table entry is unchanged. -/
theorem c3_second_producer_not_rejected (ms : MediasoupService) (pm : PeerManager)
    (kind : MediaKind) (origPid newPid rcid : String) (ti : Nat)
    (hti : ti < 2) (horig : alookup pm.producerAssignments origPid = some ti)
    (hne : origPid ≠ newPid) :
    ((MediasoupService.createRtpConsumer ms { id := newPid, kind := kind } ti rcid).1).isSome = true
  ∧ egressCount (MediasoupService.createRtpConsumer ms { id := newPid, kind := kind } ti rcid).2
      = egressCount ms + 1
  ∧ alookup (PeerManager.setProducerAssignment pm newPid ti).producerAssignments origPid = some ti
  ∧ alookup (PeerManager.setProducerAssignment pm newPid ti).producerAssignments newPid = some ti := by
  refine ⟨?_, ?_, ?_, ?_⟩
  · cases kind <;> simp [MediasoupService.createRtpConsumer, hti]
  · cases kind <;> simp [MediasoupService.createRtpConsumer, hti, egressCount] <;> omega
  · simp [PeerManager.setProducerAssignment, alookup_mapSet_ne _ _ _ _ hne, horig]
  · simp [PeerManager.setProducerAssignment, alookup_mapSet_self]

/-- C3 witness: the amended statement for a video republish onto occupied
slot 0. -/
theorem c3_second_producer_not_rejected_witness :
    ((MediasoupService.createRtpConsumer MediasoupService.empty
        { id := "p2", kind := MediaKind.video } 0 "rc2").1).isSome = true
  ∧ egressCount (MediasoupService.createRtpConsumer MediasoupService.empty
        { id := "p2", kind := MediaKind.video } 0 "rc2").2
      = egressCount MediasoupService.empty + 1
  ∧ alookup (PeerManager.setProducerAssignment
        (PeerManager.setProducerAssignment PeerManager.empty "p1" 0) "p2" 0).producerAssignments
        "p1" = some 0
  ∧ alookup (PeerManager.setProducerAssignment
        (PeerManager.setProducerAssignment PeerManager.empty "p1" 0) "p2" 0).producerAssignments
        "p2" = some 0 :=
  c3_second_producer_not_rejected MediasoupService.empty
    (PeerManager.setProducerAssignment PeerManager.empty "p1" 0)
    MediaKind.video "p1" "p2" "rc2" 0 (by decide) (by decide) (by decide)

/-- C5: the claim fails on the code.  `WebRTCServer.start` starts the FFmpeg
service unconditionally during server startup: immediately after startup the
process is running while no producer — of either kind — has been bridged
(empty assignment table, no egress consumers), contradicting "never before
that condition holds". -/
theorem c5_ffmpeg_runs_before_any_bridge_counterexample :
    (serverStart 1).ffmpeg.isRunning = true
  ∧ (serverStart 1).pm.producerAssignments = []
  ∧ (serverStart 1).ms.videoRtpConsumers = []
  ∧ (serverStart 1).ms.audioRtpConsumers = [] := by
  decide

/-- C5 (amended): the transcoder process is spawned once during server
startup, before any peer connects or any producer is bridged; after two
peers each produce audio and video (scenario B), both slots are filled —
peer 1's producers on index 0, peer 2's on index 1, one egress consumer per
(slot, kind) — and the process is (still) running. -/
theorem c5_ffmpeg_started_at_startup_scenario_b :
    (serverStart 1).ffmpeg.isRunning = true
  ∧ (serverStart 1).pm.producerAssignments = []
  ∧ scenarioB.ffmpeg.isRunning = true
  ∧ PeerManager.getProducerAssignment scenarioB.pm "pa1" = some 0
  ∧ PeerManager.getProducerAssignment scenarioB.pm "pv1" = some 0
  ∧ PeerManager.getProducerAssignment scenarioB.pm "pa2" = some 1
  ∧ PeerManager.getProducerAssignment scenarioB.pm "pv2" = some 1
  ∧ (scenarioB.ms.videoRtpConsumers.map RtpConsumer.transportIndex) = [0, 1]
  ∧ (scenarioB.ms.audioRtpConsumers.map RtpConsumer.transportIndex) = [0, 1] := by
  decide

/-- C6: the claim's error identity fails on the code.  A consume request for
the nonexistent producer `"px"` is answered with `"Cannot consume"` — the
very same rejection returned when the producer `"p1"` exists but the
capability check fails — so no distinct `ProducerNotFound` error is ever
reported; the registry is left unchanged in both cases. -/
theorem c6_same_error_for_missing_producer_counterexample :
    PeerManager.getProducer c6State.pm "px" = none
  ∧ (PeerManager.getProducer c6State.pm "p1").isSome = true
  ∧ (handleConsume c6State "a" "t1" "px" true "cx").2 = Except.error "Cannot consume"
  ∧ (handleConsume c6State "a" "t1" "p1" false "cx").2 = Except.error "Cannot consume"
  ∧ (handleConsume c6State "a" "t1" "px" true "cx").1 = c6State :=
  ⟨rfl, rfl, rfl, rfl, rfl⟩

/-- C6 (amended): a consume request naming a producer id absent from the
registry is answered with an error (the code's single `"Cannot consume"`
rejection from the consumability check, which does not distinguish a missing
producer from incompatible capabilities) and does not mutate any state: no
consumer is added to any peer and no entry changes. -/
theorem c6_consume_missing_producer_rejected (s : ServerState)
    (sid tid producerId : String) (capsOk : Bool) (ncid : String)
    (h : PeerManager.getProducer s.pm producerId = none) :
    (handleConsume s sid tid producerId capsOk ncid).1 = s
  ∧ ∃ msg, (handleConsume s sid tid producerId capsOk ncid).2 = Except.error msg := by
  cases hq : PeerManager.getTransport s.pm sid tid with
  | none =>
      refine ⟨?_, "Receiving transport not found", ?_⟩ <;> simp [handleConsume, hq]
  | some t =>
      refine ⟨?_, "Cannot consume", ?_⟩ <;> simp [handleConsume, hq, h]

/-- C6 witness: the amended statement at `c6State` with the unknown
producer id `"px"`. -/
theorem c6_consume_missing_producer_rejected_witness :
    (handleConsume c6State "a" "t1" "px" true "cw").1 = c6State
  ∧ ∃ msg, (handleConsume c6State "a" "t1" "px" true "cw").2 = Except.error msg :=
  c6_consume_missing_producer_rejected c6State "a" "t1" "px" true "cw" (by decide)

/-- C9: on the successful produce path, `handleProduce` emits its effects in
a fixed order — the producer is recorded in the registry first, then the
bridge-assignment attempt completes (successfully or as an intentional
no-op), and only then is `new-producer` broadcast to the other peers; in the
server state in force from the broadcast onward, the global registry lookup
finds the producer, so a consume request triggered by the broadcast cannot
miss it. -/
theorem c9_broadcast_after_record_and_bridge (s : ServerState)
    (sid tid npid ncid : String) (kind : MediaKind) (t : Transport)
    (h : PeerManager.getTransport s.pm sid tid = some t) :
    ∃ s2 assigned rest,
      handleProduce s sid tid kind npid ncid =
        (s2, Event.producerRecorded sid npid
              :: Event.bridgeAttempted npid assigned
              :: Event.newProducerBroadcast npid sid :: rest,
         Except.ok npid)
    ∧ (PeerManager.getProducer s2.pm npid).isSome = true := by
  have hpeer : ∃ peer, alookup s.pm.peers sid = some peer := by
    unfold PeerManager.getTransport at h
    cases hq : alookup s.pm.peers sid with
    | none => rw [hq] at h; simp at h
    | some peer => exact ⟨peer, rfl⟩
  obtain ⟨peer, hpeer⟩ := hpeer
  refine ⟨producedState s sid npid ncid kind, producedAssigned s sid npid ncid kind,
          producedTrailing s sid npid ncid kind, ?_, ?_⟩
  · unfold handleProduce producedState producedAssigned producedTrailing
    rw [h]
    rfl
  · have hadd : (PeerManager.addProducer s.pm sid { id := npid, kind := kind }).peers
        = mapSet s.pm.peers sid
            { peer with producers := mapSet peer.producers npid { id := npid, kind := kind } } := by
      simp [PeerManager.addProducer, hpeer]
    simp only [producedState, PeerManager.getProducer]
    rw [createRtpConsumerForProducer_peers, hadd]
    exact findInPeers_isSome _ sid npid _ (alookup_mapSet_self _ _ _)
      (by simp [alookup_mapSet_self])

/-- C9 witness: the ordering statement at the concrete state `c9State`
(peer `"a"` with transport `"t1"`) producing video `"p9"`. -/
theorem c9_broadcast_after_record_and_bridge_witness :
    ∃ s2 assigned rest,
      handleProduce c9State "a" "t1" MediaKind.video "p9" "rc9" =
        (s2, Event.producerRecorded "a" "p9"
              :: Event.bridgeAttempted "p9" assigned
              :: Event.newProducerBroadcast "p9" "a" :: rest,
         Except.ok "p9")
    ∧ (PeerManager.getProducer s2.pm "p9").isSome = true :=
  c9_broadcast_after_record_and_bridge c9State "a" "t1" "p9" "rc9" MediaKind.video
    { id := "t1" } (by decide)
